import Mathlib

/-!
Shallow embedding of resistojet_simulation.py over the reals, together with
theorems settling the frozen claims about the steady-state thermal solver.

Conventions of the embedding:
* Python/numpy floating-point arithmetic is modelled by real arithmetic.
* The scipy cubic-spline interpolants built by hydrogen_properties and
  inconel_properties (lines 36-118 of the source) are treated as abstract
  real-valued functions, collected in the Materials structure: every theorem
  below holds for an arbitrary choice of those interpolants, hence in
  particular for the cubic splines of the source.  The constant Inconel 718
  density 8190 (line 104) is embedded concretely.
* Temperature arrays of length NUM_STATIONS are modelled as functions ℕ → ℝ;
  the solver only reads and writes indices 0 .. NUM_STATIONS-1.
-/

noncomputable section

namespace Resistojet

/-- Number of axial stations, source line 8. -/
def NUM_STATIONS : ℕ := 20

/-- Chamber height in metres, source line 9. -/
def CHAMBER_HEIGHT : ℝ := 0.04

/-- Chamber inner diameter in metres, source line 10. -/
def CHAMBER_INNER_DIAMETER : ℝ := 0.02

/-- Chamber wall thickness in metres, source line 11. -/
def CHAMBER_WALL_THICKNESS : ℝ := 0.001

/-- Cooling gap in metres, source line 12. -/
def COOLING_GAP : ℝ := 0.001

/-- Cooling wall thickness in metres, source line 13. -/
def COOLING_WALL_THICKNESS : ℝ := 0.001

/-- Mass flow rate in kg/s, source line 14. -/
def MASS_FLOW_RATE : ℝ := 0.000005

/-- Operating pressure in Pa, source line 15. -/
def PRESSURE : ℝ := 1e6

/-- Heater power in W, source line 16. -/
def HEATER_POWER : ℝ := 70

/-- Initial temperature in K, source line 17. -/
def INITIAL_TEMP : ℝ := 300

/-- Chamber bore absolute roughness in metres, source line 18. -/
def CHAMBER_ROUGHNESS : ℝ := 0.8e-6

/-- Cooling channel absolute roughness in metres, source line 19. -/
def COOLING_ROUGHNESS : ℝ := 50e-6

/-- Source line 22. -/
def chamber_inner_radius : ℝ := CHAMBER_INNER_DIAMETER / 2

/-- Source line 23. -/
def chamber_outer_radius : ℝ := chamber_inner_radius + CHAMBER_WALL_THICKNESS

/-- Source line 24. -/
def cooling_inner_radius : ℝ := chamber_outer_radius

/-- Source line 25. -/
def cooling_outer_radius : ℝ := cooling_inner_radius + COOLING_GAP

/-- Source line 26. -/
def cooling_jacket_outer_radius : ℝ := cooling_outer_radius + COOLING_WALL_THICKNESS

/-- Chamber bore cross-sectional area, source line 28. -/
def chamber_inner_area : ℝ := Real.pi * chamber_inner_radius ^ 2

/-- Cooling annulus cross-sectional area, source line 29. -/
def cooling_area : ℝ := Real.pi * (cooling_outer_radius ^ 2 - cooling_inner_radius ^ 2)

/-- Station spacing of the data model, source line 33: dz = height / (N - 1). -/
def dz : ℝ := CHAMBER_HEIGHT / ((NUM_STATIONS : ℝ) - 1)

/-- Abstract interpolants standing for the scipy cubic splines built in
hydrogen_properties (lines 36-80) and inconel_properties (lines 82-118).
Every solver theorem is proved for an arbitrary Materials value. -/
structure Materials where
  h2_density : ℝ → ℝ
  h2_specific_heat : ℝ → ℝ
  h2_thermal_conductivity : ℝ → ℝ
  h2_viscosity : ℝ → ℝ
  inconel_specific_heat : ℝ → ℝ

/-- A concrete Materials value (all interpolants constantly 1), used to
instantiate universally quantified theorems at a specific input. -/
def constMaterials : Materials :=
  ⟨fun _ => 1, fun _ => 1, fun _ => 1, fun _ => 1, fun _ => 1⟩

/-- Hydraulic-diameter selection of calculate_flow_parameters, source lines
144-149: the area argument is compared for exact equality with the
module-level chamber_inner_area; every other value gets the cooling-duct
diameter 2 * COOLING_GAP. -/
def ductDiameter (area : ℝ) : ℝ :=
  if area = chamber_inner_area then CHAMBER_INNER_DIAMETER else 2 * COOLING_GAP

/-- Roughness selection of calculate_flow_parameters, source lines 144-149. -/
def ductRoughness (area : ℝ) : ℝ :=
  if area = chamber_inner_area then CHAMBER_ROUGHNESS else COOLING_ROUGHNESS

/-- Friction factor before the roughness correction, source lines 154-159:
laminar 64/Re below Re = 2300, Blasius at and above. -/
def frictionBase (reynolds : ℝ) : ℝ :=
  if reynolds < 2300 then 64 / reynolds else 0.316 * reynolds ^ (-0.25 : ℝ)

/-- One fixed-point update of the Colebrook-White equation, source line 169. -/
def colebrookNext (reynolds roughness hydraulic_diameter f_old : ℝ) : ℝ :=
  (1 / (-2 * Real.logb 10 (roughness / (3.7 * hydraulic_diameter) +
      2.51 / (reynolds * Real.sqrt f_old)))) ^ 2

/-- The Colebrook-White refinement loop, source lines 166-174: at most the
given number of updates, breaking (and returning the pre-update estimate)
as soon as two successive estimates differ by less than 1e-6. -/
def colebrookLoop (reynolds roughness hydraulic_diameter : ℝ) : ℕ → ℝ → ℝ
  | 0, f_old => f_old
  | n + 1, f_old =>
      if |colebrookNext reynolds roughness hydraulic_diameter f_old - f_old| < 1e-6 then f_old
      else colebrookLoop reynolds roughness hydraulic_diameter n
        (colebrookNext reynolds roughness hydraulic_diameter f_old)

/-- Full friction-factor computation of calculate_flow_parameters, source
lines 154-174, as a function of the Reynolds number and the selected duct
constants: the base correlation, refined by at most 10 Colebrook-White
updates when Re > 4000. -/
def frictionOf (reynolds roughness hydraulic_diameter : ℝ) : ℝ :=
  if 4000 < reynolds then
    colebrookLoop reynolds roughness hydraulic_diameter 10 (frictionBase reynolds)
  else frictionBase reynolds

/-- Result record of calculate_flow_parameters, source lines 176-180. -/
structure FlowParams where
  velocity : ℝ
  reynolds : ℝ
  friction_factor : ℝ

/-- calculate_flow_parameters, source lines 121-180.  The pressure argument
is accepted and unused, as in the source. -/
def calculate_flow_parameters (M : Materials) (T area mass_flow pressure : ℝ) : FlowParams :=
  ⟨mass_flow / (M.h2_density T * area),
   M.h2_density T * (mass_flow / (M.h2_density T * area)) * ductDiameter area /
     M.h2_viscosity T,
   frictionOf
     (M.h2_density T * (mass_flow / (M.h2_density T * area)) * ductDiameter area /
       M.h2_viscosity T)
     (ductRoughness area) (ductDiameter area)⟩

/-- Nusselt-number correlation of calculate_heat_transfer, source lines
216-221: laminar entry-effect formula below Re = 2300, Dittus-Boelter at
and above. -/
def nusseltOf (reynolds prandtl hydraulic_diameter : ℝ) : ℝ :=
  if reynolds < 2300 then
    3.66 + (0.0668 * (hydraulic_diameter / CHAMBER_HEIGHT) * reynolds * prandtl) /
      (1 + 0.04 * ((hydraulic_diameter / CHAMBER_HEIGHT) * reynolds * prandtl) ^ ((2 : ℝ) / 3))
  else
    0.023 * reynolds ^ (0.8 : ℝ) * prandtl ^ (0.4 : ℝ)

/-- Duct type argument of calculate_heat_transfer, source line 202-207. -/
inductive AreaType where
  | chamber
  | cooling

/-- Cross-sectional area selected by the duct type, source lines 202-207. -/
def areaOf : AreaType → ℝ
  | AreaType.chamber => chamber_inner_area
  | AreaType.cooling => cooling_area

/-- calculate_heat_transfer, source lines 183-226: Prandtl number from the
fluid properties at T_fluid, regime-switched Nusselt number, and
h = Nu * k / hydraulic_diameter.  The T_wall argument is accepted and unused,
as in the source. -/
def calculate_heat_transfer (M : Materials) (T_fluid T_wall : ℝ) (area_type : AreaType)
    (hydraulic_diameter : ℝ) : ℝ :=
  nusseltOf
    (calculate_flow_parameters M T_fluid (areaOf area_type) MASS_FLOW_RATE PRESSURE).reynolds
    (M.h2_specific_heat T_fluid * M.h2_viscosity T_fluid / M.h2_thermal_conductivity T_fluid)
    hydraulic_diameter
  * M.h2_thermal_conductivity T_fluid / hydraulic_diameter

/-- Per-station wall-to-coolant heat-transfer area used by the solver,
source lines 276 and 335: 2 * pi * chamber_outer_radius * (height / N).
Note the spacing used is CHAMBER_HEIGHT / NUM_STATIONS, not dz. -/
def cooling_heat_transfer_area : ℝ :=
  2 * Real.pi * chamber_outer_radius * (CHAMBER_HEIGHT / (NUM_STATIONS : ℝ))

/-- Per-station wall-to-chamber-fluid heat-transfer area used by the solver,
source lines 304 and 336. -/
def chamber_heat_transfer_area : ℝ :=
  2 * Real.pi * chamber_inner_radius * (CHAMBER_HEIGHT / (NUM_STATIONS : ℝ))

/-- Per-station heater power, source line 253: HEATER_POWER / NUM_STATIONS. -/
def heater_power_per_station : ℝ := HEATER_POWER / (NUM_STATIONS : ℝ)

/-- Volume of one wall segment, source line 350. -/
def wall_segment_volume : ℝ :=
  Real.pi * (chamber_outer_radius ^ 2 - chamber_inner_radius ^ 2) *
    (CHAMBER_HEIGHT / (NUM_STATIONS : ℝ))

/-- Coolant update at station i of the forward pass, source lines 263-285:
the new T_coolant[i+1] computed from the current coolant and wall arrays. -/
def coolantStep (M : Materials) (Tc Tw : ℕ → ℝ) (i : ℕ) : ℝ :=
  Tc i +
    calculate_heat_transfer M (Tc i) (Tw i) AreaType.cooling (2 * COOLING_GAP) *
      cooling_heat_transfer_area * (Tw i - Tc i) /
    (MASS_FLOW_RATE * M.h2_specific_heat (Tc i))

/-- First k steps of the coolant pass, updating stations 1 .. k in order
(step j writes station j+1 from station j), source lines 263-285. -/
def coolantPassAux (M : Materials) (Tw : ℕ → ℝ) : ℕ → (ℕ → ℝ) → (ℕ → ℝ)
  | 0, Tc => Tc
  | k + 1, Tc =>
      Function.update (coolantPassAux M Tw k Tc) (k + 1)
        (coolantStep M (coolantPassAux M Tw k Tc) Tw k)

/-- Full coolant pass: the Python loop for i in range(NUM_STATIONS - 1). -/
def coolantPass (M : Materials) (Tw Tc : ℕ → ℝ) : ℕ → ℝ :=
  coolantPassAux M Tw (NUM_STATIONS - 1) Tc

/-- Chamber-fluid update at station i of the backward pass, source lines
291-315: the new T_chamber[i-1] computed from station i. -/
def chamberStep (M : Materials) (Tch Tw : ℕ → ℝ) (i : ℕ) : ℝ :=
  Tch i +
    (heater_power_per_station +
      calculate_heat_transfer M (Tch i) (Tw i) AreaType.chamber CHAMBER_INNER_DIAMETER *
        chamber_heat_transfer_area * (Tw i - Tch i)) /
    (MASS_FLOW_RATE * M.h2_specific_heat (Tch i))

/-- First k steps of the backward chamber pass: step j handles station
i = NUM_STATIONS - 1 - j and writes station i - 1, source lines 291-315. -/
def chamberPassAux (M : Materials) (Tw : ℕ → ℝ) : ℕ → (ℕ → ℝ) → (ℕ → ℝ)
  | 0, Tch => Tch
  | k + 1, Tch =>
      Function.update (chamberPassAux M Tw k Tch) (NUM_STATIONS - 1 - k - 1)
        (chamberStep M (chamberPassAux M Tw k Tch) Tw (NUM_STATIONS - 1 - k))

/-- Full chamber-fluid pass, source lines 287-315: first the counter-flow
boundary condition T_chamber[N-1] = T_coolant[N-1] (line 289), then the
backward loop for i in range(NUM_STATIONS - 1, 0, -1). -/
def chamberPass (M : Materials) (Tw Tc Tch : ℕ → ℝ) : ℕ → ℝ :=
  chamberPassAux M Tw (NUM_STATIONS - 1)
    (Function.update Tch (NUM_STATIONS - 1) (Tc (NUM_STATIONS - 1)))

/-- Wall energy-balance update at station i, source lines 318-357.  The
Python loop mutates T_wall in place, but the update at station i reads only
index i of the wall array, so the pointwise form is equivalent. -/
def wallStep (M : Materials) (relax : ℝ) (Tc Tch Tw : ℕ → ℝ) (i : ℕ) : ℝ :=
  Tw i +
    (heater_power_per_station -
      calculate_heat_transfer M (Tc i) (Tw i) AreaType.cooling (2 * COOLING_GAP) *
        cooling_heat_transfer_area * (Tw i - Tc i) -
      calculate_heat_transfer M (Tch i) (Tw i) AreaType.chamber CHAMBER_INNER_DIAMETER *
        chamber_heat_transfer_area * (Tw i - Tch i)) /
    (8190 * wall_segment_volume * M.inconel_specific_heat (Tw i)) * relax

/-- Full wall pass: the Python loop for i in range(NUM_STATIONS). -/
def wallPass (M : Materials) (relax : ℝ) (Tc Tch Tw : ℕ → ℝ) : ℕ → ℝ :=
  fun i => if i < NUM_STATIONS then wallStep M relax Tc Tch Tw i else Tw i

/-- Convergence metric, source line 360: max over the stations of the
absolute wall-temperature change. -/
def maxDiff (Tprev Tnew : ℕ → ℝ) : ℝ :=
  (Finset.range NUM_STATIONS).sup' (Finset.nonempty_range_iff.mpr (by decide))
    fun i => |Tnew i - Tprev i|

/-- Mutable state of one solver run: the three temperature arrays, the
current relaxation factor and the previous iteration's max-diff
(prev_max_diff, source line 256).  prev_max_diff starts as float('inf') in
the source but is only ever read under the guard iteration > 0 (line 370),
so its initial value is irrelevant and is modelled as 0. -/
structure SimState where
  Tw : ℕ → ℝ
  Tc : ℕ → ℝ
  Tch : ℕ → ℝ
  relax : ℝ
  prevDiff : ℝ

/-- Initial solver state, source lines 247-256: all three arrays constantly
INITIAL_TEMP. -/
def initState (relax0 : ℝ) : SimState :=
  ⟨fun _ => INITIAL_TEMP, fun _ => INITIAL_TEMP, fun _ => INITIAL_TEMP, relax0, 0⟩

/-- One full iteration of the solver loop body, source lines 258-374:
coolant pass, chamber pass, wall pass, convergence metric, adaptive
relaxation (shrink by 5 percent when the max-diff grew and iteration > 0).
Returns the new state together with this iteration's max-diff. -/
def iterateOnce (M : Materials) (iterIdx : ℕ) (st : SimState) : SimState × ℝ :=
  let Tc1 := coolantPass M st.Tw st.Tc
  let Tch1 := chamberPass M st.Tw Tc1 st.Tch
  let Tw1 := wallPass M st.relax Tc1 Tch1 st.Tw
  let d := maxDiff st.Tw Tw1
  (⟨Tw1, Tc1, Tch1, if 0 < iterIdx ∧ st.prevDiff < d then st.relax * 0.95 else st.relax, d⟩, d)

/-- The iteration-indexed trajectory of solver states: stateAt k is the
internal state after k full iterations starting from initState relax0. -/
def stateAt (M : Materials) (relax0 : ℝ) : ℕ → SimState
  | 0 => initState relax0
  | k + 1 => (iterateOnce M k (stateAt M relax0 k)).1

/-- The max-diff produced by iteration k of the trajectory. -/
def diffAt (M : Materials) (relax0 : ℝ) (k : ℕ) : ℝ :=
  (iterateOnce M k (stateAt M relax0 k)).2

/-- The solver loop of steady_state_simulation, source lines 258-378:
run up to fuel more iterations starting at loop index idx; break as soon as
an iteration's max-diff drops below the tolerance.  Returns the final state
and the Python value iteration + 1 (the number of completed iterations). -/
def solverLoop (M : Materials) (tol : ℝ) : ℕ → ℕ → SimState → SimState × ℕ
  | 0, idx, st => (st, idx)
  | fuel + 1, idx, st =>
      if (iterateOnce M idx st).2 < tol then ((iterateOnce M idx st).1, idx + 1)
      else solverLoop M tol fuel (idx + 1) (iterateOnce M idx st).1

/-- Return value of steady_state_simulation, source line 385, together with
the non-fatal warning print of lines 380-382 modelled as the Boolean warned
(the print fires exactly when the last executed loop index equals
max_iterations - 1, i.e. when iterations = max_iterations). -/
structure SimResult where
  T_wall : ℕ → ℝ
  T_coolant : ℕ → ℝ
  T_chamber : ℕ → ℝ
  iterations : ℕ
  warned : Bool

/-- steady_state_simulation, source lines 229-385 (plot-free content). -/
def steady_state_simulation (M : Materials) (maxIter : ℕ) (tol relax0 : ℝ) : SimResult :=
  ⟨(solverLoop M tol maxIter 0 (initState relax0)).1.Tw,
   (solverLoop M tol maxIter 0 (initState relax0)).1.Tc,
   (solverLoop M tol maxIter 0 (initState relax0)).1.Tch,
   (solverLoop M tol maxIter 0 (initState relax0)).2,
   (solverLoop M tol maxIter 0 (initState relax0)).2 == maxIter⟩

/-- The result a run produces when it stops after n of maxIter iterations:
the arrays of the n-th trajectory state, the count n, and the warning flag. -/
def resultOfRun (M : Materials) (relax0 : ℝ) (n maxIter : ℕ) : SimResult :=
  ⟨(stateAt M relax0 n).Tw, (stateAt M relax0 n).Tc, (stateAt M relax0 n).Tch, n, n == maxIter⟩

/-- The error captured from one callback invocation, if any: the try/except
of source lines 364-367 turns a raised exception into a logged message. -/
def errOf {ε : Type} : Except ε Unit → Option ε
  | Except.error e => some e
  | Except.ok _ => none

/-- Output of the callback-instrumented solver loop: final state, completed
iteration count, the list of callback invocations (arguments passed), and
the list of exceptions caught from the callback. -/
structure CbLoopOut (ε : Type) where
  st : SimState
  iters : ℕ
  calls : List (ℕ × ℕ × ℝ)
  errs : List ε

/-- The solver loop with the progress callback of source lines 362-367: the
callback is invoked once per iteration with (iteration, max_iterations,
max_diff), before the convergence break; any exception it raises is caught
and logged and the loop continues unchanged. -/
def solverLoopCb {ε : Type} (M : Materials) (cb : ℕ → ℕ → ℝ → Except ε Unit)
    (maxIterArg : ℕ) (tol : ℝ) : ℕ → ℕ → SimState → CbLoopOut ε
  | 0, idx, st => ⟨st, idx, [], []⟩
  | fuel + 1, idx, st =>
      if (iterateOnce M idx st).2 < tol then
        ⟨(iterateOnce M idx st).1, idx + 1,
         [(idx, maxIterArg, (iterateOnce M idx st).2)],
         (errOf (cb idx maxIterArg (iterateOnce M idx st).2)).toList⟩
      else
        ⟨(solverLoopCb M cb maxIterArg tol fuel (idx + 1) (iterateOnce M idx st).1).st,
         (solverLoopCb M cb maxIterArg tol fuel (idx + 1) (iterateOnce M idx st).1).iters,
         (idx, maxIterArg, (iterateOnce M idx st).2) ::
           (solverLoopCb M cb maxIterArg tol fuel (idx + 1) (iterateOnce M idx st).1).calls,
         (errOf (cb idx maxIterArg (iterateOnce M idx st).2)).toList ++
           (solverLoopCb M cb maxIterArg tol fuel (idx + 1) (iterateOnce M idx st).1).errs⟩

/-- Result of a steady_state_simulation run with a progress callback:
the SimResult, the callback invocations, and the caught exceptions. -/
structure SimRunCb (ε : Type) where
  result : SimResult
  calls : List (ℕ × ℕ × ℝ)
  errors : List ε

/-- steady_state_simulation with a progress callback, source lines 229-385
including the callback block of lines 362-367. -/
def steady_state_simulation_cb {ε : Type} (M : Materials)
    (cb : ℕ → ℕ → ℝ → Except ε Unit) (maxIter : ℕ) (tol relax0 : ℝ) : SimRunCb ε :=
  ⟨⟨(solverLoopCb M cb maxIter tol maxIter 0 (initState relax0)).st.Tw,
    (solverLoopCb M cb maxIter tol maxIter 0 (initState relax0)).st.Tc,
    (solverLoopCb M cb maxIter tol maxIter 0 (initState relax0)).st.Tch,
    (solverLoopCb M cb maxIter tol maxIter 0 (initState relax0)).iters,
    (solverLoopCb M cb maxIter tol maxIter 0 (initState relax0)).iters == maxIter⟩,
   (solverLoopCb M cb maxIter tol maxIter 0 (initState relax0)).calls,
   (solverLoopCb M cb maxIter tol maxIter 0 (initState relax0)).errs⟩

/-- np.mean over the NUM_STATIONS entries of a temperature array,
source line 508. -/
def npMean (T : ℕ → ℝ) : ℝ :=
  (∑ i ∈ Finset.range NUM_STATIONS, T i) / (NUM_STATIONS : ℝ)

/-- Whole-wall volume used by the equilibrium-time estimate, source
line 509 (full chamber height, unlike the per-segment volume). -/
def equilibrium_wall_volume : ℝ :=
  Real.pi * (chamber_outer_radius ^ 2 - chamber_inner_radius ^ 2) * CHAMBER_HEIGHT

/-- Result record of calculate_equilibrium_time, source lines 519-523. -/
structure EquilibriumTimes where
  time_constant : ℝ
  time_to_90_percent : ℝ
  time_to_99_percent : ℝ

/-- calculate_equilibrium_time, source lines 493-523: first-order lumped
thermal model of the wall; the Inconel density 8190 is concrete, the
specific heat comes from the abstract interpolant at np.mean(T_wall). -/
def calculate_equilibrium_time (M : Materials) (T_chamber_wall : ℕ → ℝ)
    (heater_power : ℝ) : EquilibriumTimes :=
  ⟨8190 * equilibrium_wall_volume * M.inconel_specific_heat (npMean T_chamber_wall) /
      (heater_power * 0.8),
   -(8190 * equilibrium_wall_volume * M.inconel_specific_heat (npMean T_chamber_wall) /
      (heater_power * 0.8)) * Real.log 0.1,
   -(8190 * equilibrium_wall_volume * M.inconel_specific_heat (npMean T_chamber_wall) /
      (heater_power * 0.8)) * Real.log 0.01⟩

/-! Theorems. -/

/-- Claim C1 (counterexample): the per-station heat-transfer areas computed
by steady_state_simulation do NOT equal 2 pi r dz with the data model's
spacing dz = height / (N - 1): the source divides the height by
NUM_STATIONS, not by NUM_STATIONS - 1. -/
theorem claim_C1_counterexample :
    cooling_heat_transfer_area ≠ 2 * Real.pi * chamber_outer_radius * dz ∧
    chamber_heat_transfer_area ≠ 2 * Real.pi * chamber_inner_radius * dz := by
  have hpi := Real.pi_pos
  constructor
  · intro h
    rw [cooling_heat_transfer_area, dz, chamber_outer_radius, chamber_inner_radius,
      CHAMBER_INNER_DIAMETER, CHAMBER_WALL_THICKNESS, CHAMBER_HEIGHT, NUM_STATIONS] at h
    norm_num at h
    nlinarith
  · intro h
    rw [chamber_heat_transfer_area, dz, chamber_inner_radius,
      CHAMBER_INNER_DIAMETER, CHAMBER_HEIGHT, NUM_STATIONS] at h
    norm_num at h
    nlinarith

/-- Claim C1 (amended): in every iteration of steady_state_simulation the
wall-to-coolant area equals 2 pi chamber_outer_radius (height / N) and the
wall-to-chamber area equals 2 pi chamber_inner_radius (height / N), with
N = NUM_STATIONS = 20; each equals 19/20 of the 2 pi r dz value claimed
from the data model's spacing dz = height / (N - 1). -/
theorem claim_C1_amended :
    cooling_heat_transfer_area =
      2 * Real.pi * chamber_outer_radius * (CHAMBER_HEIGHT / (NUM_STATIONS : ℝ)) ∧
    chamber_heat_transfer_area =
      2 * Real.pi * chamber_inner_radius * (CHAMBER_HEIGHT / (NUM_STATIONS : ℝ)) ∧
    cooling_heat_transfer_area = 19 / 20 * (2 * Real.pi * chamber_outer_radius * dz) ∧
    chamber_heat_transfer_area = 19 / 20 * (2 * Real.pi * chamber_inner_radius * dz) := by
  refine ⟨rfl, rfl, ?_, ?_⟩ <;>
  · simp only [cooling_heat_transfer_area, chamber_heat_transfer_area, dz,
      CHAMBER_HEIGHT, NUM_STATIONS]
    norm_num
    ring

/-- Claim C9: calculate_flow_parameters selects the duct constants by exact
equality of the area argument with chamber_inner_area; equality yields the
chamber constants, and any other area value - however close - silently gets
the cooling-duct hydraulic diameter 2 * COOLING_GAP and COOLING_ROUGHNESS,
which then feed the Reynolds number and the friction factor. -/
theorem claim_C9 (area : ℝ) (h : area ≠ chamber_inner_area) :
    ductDiameter chamber_inner_area = CHAMBER_INNER_DIAMETER ∧
    ductRoughness chamber_inner_area = CHAMBER_ROUGHNESS ∧
    ductDiameter area = 2 * COOLING_GAP ∧
    ductRoughness area = COOLING_ROUGHNESS ∧
    ∀ (M : Materials) (T mass_flow pressure : ℝ),
      (calculate_flow_parameters M T area mass_flow pressure).reynolds =
        M.h2_density T * (mass_flow / (M.h2_density T * area)) * (2 * COOLING_GAP) /
          M.h2_viscosity T ∧
      (calculate_flow_parameters M T area mass_flow pressure).friction_factor =
        frictionOf (calculate_flow_parameters M T area mass_flow pressure).reynolds
          COOLING_ROUGHNESS (2 * COOLING_GAP) := by
  refine ⟨by rw [ductDiameter, if_pos rfl], by rw [ductRoughness, if_pos rfl],
    by rw [ductDiameter, if_neg h], by rw [ductRoughness, if_neg h], ?_⟩
  intro M T mass_flow pressure
  constructor <;>
    simp only [calculate_flow_parameters, ductDiameter, ductRoughness, if_neg h]

/-- Claim C9 (witness): a chamber-like area differing from chamber_inner_area
by a rounding-sized 1e-12 is given the cooling-duct constants. -/
theorem claim_C9_witness :
    chamber_inner_area + 1e-12 ≠ chamber_inner_area ∧
    ductDiameter (chamber_inner_area + 1e-12) = 2 * COOLING_GAP ∧
    ductRoughness (chamber_inner_area + 1e-12) = COOLING_ROUGHNESS :=
  ⟨ne_of_gt (lt_add_of_pos_right chamber_inner_area (by norm_num)),
   (claim_C9 (chamber_inner_area + 1e-12)
     (ne_of_gt (lt_add_of_pos_right chamber_inner_area (by norm_num)))).2.2.1,
   (claim_C9 (chamber_inner_area + 1e-12)
     (ne_of_gt (lt_add_of_pos_right chamber_inner_area (by norm_num)))).2.2.2.1⟩

/-- Claim C8: for heater_power > 0, calculate_equilibrium_time returns the
first-order lumped-model values: time_constant * (0.8 * heater_power) equals
the wall heat capacity (mass times specific heat), the settling times are
-time_constant * ln(0.1) and -time_constant * ln(0.01), equivalently
time_constant * ln 10 and twice the 90-percent time. -/
theorem claim_C8 (M : Materials) (T_chamber_wall : ℕ → ℝ) (heater_power : ℝ)
    (h : 0 < heater_power) :
    (calculate_equilibrium_time M T_chamber_wall heater_power).time_constant *
        (0.8 * heater_power) =
      8190 * equilibrium_wall_volume * M.inconel_specific_heat (npMean T_chamber_wall) ∧
    (calculate_equilibrium_time M T_chamber_wall heater_power).time_constant =
      8190 * equilibrium_wall_volume * M.inconel_specific_heat (npMean T_chamber_wall) /
        (0.8 * heater_power) ∧
    (calculate_equilibrium_time M T_chamber_wall heater_power).time_to_90_percent =
      -(calculate_equilibrium_time M T_chamber_wall heater_power).time_constant *
        Real.log 0.1 ∧
    (calculate_equilibrium_time M T_chamber_wall heater_power).time_to_99_percent =
      -(calculate_equilibrium_time M T_chamber_wall heater_power).time_constant *
        Real.log 0.01 ∧
    (calculate_equilibrium_time M T_chamber_wall heater_power).time_to_90_percent =
      (calculate_equilibrium_time M T_chamber_wall heater_power).time_constant *
        Real.log 10 ∧
    (calculate_equilibrium_time M T_chamber_wall heater_power).time_to_99_percent =
      2 * (calculate_equilibrium_time M T_chamber_wall heater_power).time_to_90_percent := by
  have hne : heater_power * 0.8 ≠ 0 := by positivity
  have hlog1 : Real.log 0.1 = -Real.log 10 := by
    rw [show (0.1 : ℝ) = (10 : ℝ)⁻¹ by norm_num, Real.log_inv]
  have hlog2 : Real.log 0.01 = 2 * Real.log 0.1 := by
    rw [show (0.01 : ℝ) = (0.1 : ℝ) ^ (2 : ℕ) by norm_num, Real.log_pow]
    push_cast
    ring
  refine ⟨?_, ?_, rfl, rfl, ?_, ?_⟩
  · simp only [calculate_equilibrium_time]
    rw [mul_comm (0.8 : ℝ) heater_power]
    exact div_mul_cancel₀ _ hne
  · simp only [calculate_equilibrium_time]
    rw [mul_comm heater_power 0.8]
  · simp only [calculate_equilibrium_time, hlog1]
    ring
  · simp only [calculate_equilibrium_time, hlog2]
    ring

/-- Claim C8 (witness): instantiation at heater_power = 70 with a constant
wall-temperature profile. -/
theorem claim_C8_witness :
    (0 : ℝ) < 70 ∧
    (calculate_equilibrium_time constMaterials (fun _ => 300) 70).time_to_99_percent =
      2 * (calculate_equilibrium_time constMaterials (fun _ => 300) 70).time_to_90_percent :=
  ⟨by norm_num,
   (claim_C8 constMaterials (fun _ => 300) 70 (by norm_num)).2.2.2.2.2⟩

/-- At Re = 2299 the laminar branch applies and no Colebrook refinement. -/
lemma frictionOf_at_2299 (roughness d : ℝ) : frictionOf 2299 roughness d = 64 / 2299 := by
  unfold frictionOf frictionBase
  rw [if_neg (by norm_num : ¬ (4000 : ℝ) < 2299), if_pos (by norm_num : (2299 : ℝ) < 2300)]

/-- At Re = 2301 the Blasius branch applies and no Colebrook refinement. -/
lemma frictionOf_at_2301 (roughness d : ℝ) :
    frictionOf 2301 roughness d = 0.316 * (2301 : ℝ) ^ (-0.25 : ℝ) := by
  unfold frictionOf frictionBase
  rw [if_neg (by norm_num : ¬ (4000 : ℝ) < 2301), if_neg (by norm_num : ¬ (2301 : ℝ) < 2300)]

/-- Numerical lower bound: 2301 ^ (-1/4) exceeds 1/7 (because 2301 < 7^4). -/
lemma rpow_2301_lower : (1 : ℝ) / 7 < (2301 : ℝ) ^ (-0.25 : ℝ) := by
  have hq : ((2401 : ℝ)) ^ ((1 : ℝ) / 4) = 7 := by
    have h1 : (2401 : ℝ) = (7 : ℝ) ^ (4 : ℕ) := by norm_num
    rw [h1, ← Real.rpow_natCast (7 : ℝ) 4, ← Real.rpow_mul (by norm_num : (0 : ℝ) ≤ 7)]
    norm_num
  have hlt : (2301 : ℝ) ^ ((1 : ℝ) / 4) < 7 := by
    rw [← hq]
    exact Real.rpow_lt_rpow (by norm_num) (by norm_num) (by norm_num)
  have hpos : (0 : ℝ) < (2301 : ℝ) ^ ((1 : ℝ) / 4) :=
    Real.rpow_pos_of_pos (by norm_num) _
  have hneg : (2301 : ℝ) ^ (-0.25 : ℝ) = ((2301 : ℝ) ^ ((1 : ℝ) / 4))⁻¹ := by
    rw [show (-0.25 : ℝ) = -((1 : ℝ) / 4) by norm_num,
      Real.rpow_neg (by norm_num : (0 : ℝ) ≤ 2301)]
  rw [hneg, one_div]
  exact inv_strictAnti₀ hpos hlt

/-- Claim C3 (counterexample): at the source's own duct constants, sampling
Re = 2299 and Re = 2301 yields friction factors 64/2299 < 0.028 and
0.316 * 2301^(-0.25) > 0.045, a jump exceeding 0.017 - over 60 percent of
the laminar value, so the correlation is not continuous at Re = 2300. -/
theorem claim_C3_counterexample :
    frictionOf 2299 CHAMBER_ROUGHNESS CHAMBER_INNER_DIAMETER < 0.028 ∧
    0.045 < frictionOf 2301 CHAMBER_ROUGHNESS CHAMBER_INNER_DIAMETER ∧
    0.017 < frictionOf 2301 CHAMBER_ROUGHNESS CHAMBER_INNER_DIAMETER -
      frictionOf 2299 CHAMBER_ROUGHNESS CHAMBER_INNER_DIAMETER := by
  rw [frictionOf_at_2299, frictionOf_at_2301]
  have h := rpow_2301_lower
  refine ⟨by norm_num, by nlinarith, by nlinarith⟩

/-- Claim C3 (amended): the friction-factor correlation is discontinuous
across the Re = 2300 regime switch: for every roughness and hydraulic
diameter, the value at Re = 2299 is below 0.028 while the value at Re = 2301
exceeds 0.045, so the sampled difference exceeds 0.017 rather than staying
below a small epsilon. -/
theorem claim_C3_amended (roughness d : ℝ) :
    frictionOf 2299 roughness d < 0.028 ∧
    0.045 < frictionOf 2301 roughness d ∧
    0.017 < frictionOf 2301 roughness d - frictionOf 2299 roughness d := by
  rw [frictionOf_at_2299, frictionOf_at_2301]
  have h := rpow_2301_lower
  refine ⟨by norm_num, by nlinarith, by nlinarith⟩

/-- Characterization of the Colebrook-White loop: either some first index
k < n has two successive fixed-point iterates within 1e-6 and the loop
returns the k-th iterate, or no index below n does and the loop returns the
n-th iterate. -/
lemma colebrookLoop_char (re rough d : ℝ) :
    ∀ (n : ℕ) (f : ℝ),
      (∃ k, k < n ∧
          |(colebrookNext re rough d)^[k + 1] f - (colebrookNext re rough d)^[k] f| < 1e-6 ∧
          (∀ j, j < k →
            ¬ |(colebrookNext re rough d)^[j + 1] f - (colebrookNext re rough d)^[j] f| < 1e-6) ∧
          colebrookLoop re rough d n f = (colebrookNext re rough d)^[k] f) ∨
      ((∀ j, j < n →
          ¬ |(colebrookNext re rough d)^[j + 1] f - (colebrookNext re rough d)^[j] f| < 1e-6) ∧
        colebrookLoop re rough d n f = (colebrookNext re rough d)^[n] f) := by
  intro n
  induction n with
  | zero =>
      intro f
      exact Or.inr ⟨fun j hj => absurd hj (Nat.not_lt_zero j), rfl⟩
  | succ n ih =>
      intro f
      by_cases h0 : |colebrookNext re rough d f - f| < 1e-6
      · refine Or.inl ⟨0, Nat.succ_pos n, ?_, ?_, ?_⟩
        · simpa using h0
        · intro j hj
          exact absurd hj (Nat.not_lt_zero j)
        · simp only [colebrookLoop, if_pos h0, Function.iterate_zero, id_eq]
      · have hstep : colebrookLoop re rough d (n + 1) f =
            colebrookLoop re rough d n (colebrookNext re rough d f) := by
          simp only [colebrookLoop, if_neg h0]
        rcases ih (colebrookNext re rough d f) with ⟨k, hk, hcv, hfirst, heq⟩ | ⟨hall, heq⟩
        · refine Or.inl ⟨k + 1, by omega, ?_, ?_, ?_⟩
          · simpa [Function.iterate_succ_apply] using hcv
          · intro j hj
            cases j with
            | zero => simpa using h0
            | succ j =>
                have := hfirst j (by omega)
                simpa [Function.iterate_succ_apply] using this
          · rw [hstep, heq, ← Function.iterate_succ_apply]
        · refine Or.inr ⟨?_, by rw [hstep, heq, ← Function.iterate_succ_apply]⟩
          intro j hj
          cases j with
          | zero => simpa using h0
          | succ j =>
              have := hall j (by omega)
              simpa [Function.iterate_succ_apply] using this

/-- Claim C5: in calculate_flow_parameters, when Re is not above 4000 the
base correlation is returned unrefined; when Re > 4000 the friction factor
is the result of at most 10 Colebrook-White fixed-point updates of the base
value, stopping early at the first pair of successive estimates within 1e-6
(returning the earlier of the two), and otherwise - with no error - the
10th estimate. -/
theorem claim_C5 (re rough d : ℝ) :
    (¬ 4000 < re ∧ frictionOf re rough d = frictionBase re) ∨
    (4000 < re ∧
      ((∃ k, k < 10 ∧
          |(colebrookNext re rough d)^[k + 1] (frictionBase re) -
            (colebrookNext re rough d)^[k] (frictionBase re)| < 1e-6 ∧
          (∀ j, j < k →
            ¬ |(colebrookNext re rough d)^[j + 1] (frictionBase re) -
                (colebrookNext re rough d)^[j] (frictionBase re)| < 1e-6) ∧
          frictionOf re rough d = (colebrookNext re rough d)^[k] (frictionBase re)) ∨
       ((∀ j, j < 10 →
            ¬ |(colebrookNext re rough d)^[j + 1] (frictionBase re) -
                (colebrookNext re rough d)^[j] (frictionBase re)| < 1e-6) ∧
          frictionOf re rough d = (colebrookNext re rough d)^[10] (frictionBase re)))) := by
  by_cases h : 4000 < re
  · refine Or.inr ⟨h, ?_⟩
    have hfr : frictionOf re rough d = colebrookLoop re rough d 10 (frictionBase re) := by
      rw [frictionOf, if_pos h]
    rcases colebrookLoop_char re rough d 10 (frictionBase re) with
        ⟨k, hk, hcv, hfirst, heq⟩ | ⟨hall, heq⟩
    · exact Or.inl ⟨k, hk, hcv, hfirst, by rw [hfr, heq]⟩
    · exact Or.inr ⟨hall, by rw [hfr, heq]⟩
  · exact Or.inl ⟨h, by rw [frictionOf, if_neg h]⟩

/-- The coolant pass never writes station 0: step j writes station j + 1. -/
lemma coolantPassAux_zero (M : Materials) (Tw : ℕ → ℝ) :
    ∀ (k : ℕ) (Tc : ℕ → ℝ), coolantPassAux M Tw k Tc 0 = Tc 0 := by
  intro k
  induction k with
  | zero => intro Tc; rfl
  | succ k ih =>
      intro Tc
      simp only [coolantPassAux]
      rw [Function.update_noteq (show (0 : ℕ) ≠ k + 1 by omega)]
      exact ih Tc

/-- The backward chamber pass never writes station NUM_STATIONS - 1: step j
writes station NUM_STATIONS - 2 - j. -/
lemma chamberPassAux_last (M : Materials) (Tw : ℕ → ℝ) :
    ∀ (k : ℕ) (Tch : ℕ → ℝ),
      chamberPassAux M Tw k Tch (NUM_STATIONS - 1) = Tch (NUM_STATIONS - 1) := by
  intro k
  induction k with
  | zero => intro Tch; rfl
  | succ k ih =>
      intro Tch
      simp only [chamberPassAux]
      rw [Function.update_noteq (by simp only [NUM_STATIONS]; omega)]
      exact ih Tch

/-- After the chamber pass, station NUM_STATIONS - 1 holds the coolant's
outlet temperature (the boundary condition of source line 289). -/
lemma chamberPass_last (M : Materials) (Tw Tc Tch : ℕ → ℝ) :
    chamberPass M Tw Tc Tch (NUM_STATIONS - 1) = Tc (NUM_STATIONS - 1) := by
  unfold chamberPass
  rw [chamberPassAux_last]
  exact Function.update_same _ _ _

/-- One iteration leaves the coolant's station 0 unchanged. -/
lemma iterateOnce_Tc_zero (M : Materials) (idx : ℕ) (st : SimState) :
    ((iterateOnce M idx st).1).Tc 0 = st.Tc 0 :=
  coolantPassAux_zero M st.Tw (NUM_STATIONS - 1) st.Tc

/-- After any full iteration, the chamber fluid's inlet station equals the
coolant's outlet station. -/
lemma iterateOnce_couple (M : Materials) (idx : ℕ) (st : SimState) :
    ((iterateOnce M idx st).1).Tch (NUM_STATIONS - 1) =
      ((iterateOnce M idx st).1).Tc (NUM_STATIONS - 1) :=
  chamberPass_last M st.Tw (coolantPass M st.Tw st.Tc) st.Tch

/-- The solver loop preserves the coolant's station-0 value. -/
lemma solverLoop_Tc_zero (M : Materials) (tol : ℝ) :
    ∀ (fuel idx : ℕ) (st : SimState),
      ((solverLoop M tol fuel idx st).1).Tc 0 = st.Tc 0 := by
  intro fuel
  induction fuel with
  | zero => intro idx st; rfl
  | succ fuel ih =>
      intro idx st
      simp only [solverLoop]
      split_ifs
      · exact iterateOnce_Tc_zero M idx st
      · rw [ih]
        exact iterateOnce_Tc_zero M idx st

/-- The solver loop preserves the counter-flow coupling invariant. -/
lemma solverLoop_couple (M : Materials) (tol : ℝ) :
    ∀ (fuel idx : ℕ) (st : SimState),
      st.Tch (NUM_STATIONS - 1) = st.Tc (NUM_STATIONS - 1) →
      ((solverLoop M tol fuel idx st).1).Tch (NUM_STATIONS - 1) =
        ((solverLoop M tol fuel idx st).1).Tc (NUM_STATIONS - 1) := by
  intro fuel
  induction fuel with
  | zero => intro idx st h; exact h
  | succ fuel ih =>
      intro idx st h
      simp only [solverLoop]
      split_ifs
      · exact iterateOnce_couple M idx st
      · exact ih (idx + 1) _ (iterateOnce_couple M idx st)

/-- Claim C2: the arrays returned by steady_state_simulation satisfy
T_chamber[N-1] = T_coolant[N-1] exactly: each iteration's chamber pass sets
station N-1 from the coolant's outlet and no later phase of the iteration
writes either entry (and the initial arrays agree there as well). -/
theorem claim_C2 (M : Materials) (maxIter : ℕ) (tol relax0 : ℝ) :
    (steady_state_simulation M maxIter tol relax0).T_chamber (NUM_STATIONS - 1) =
      (steady_state_simulation M maxIter tol relax0).T_coolant (NUM_STATIONS - 1) :=
  solverLoop_couple M tol maxIter 0 (initState relax0) rfl

/-- Claim C10: steady_state_simulation never writes the coolant array's
station 0; the returned T_coolant[0] is INITIAL_TEMP for every number of
iterations performed. -/
theorem claim_C10 (M : Materials) (maxIter : ℕ) (tol relax0 : ℝ) :
    (steady_state_simulation M maxIter tol relax0).T_coolant 0 = INITIAL_TEMP :=
  solverLoop_Tc_zero M tol maxIter 0 (initState relax0)

/-- Unfolding of the trajectory's relaxation factor: one iteration either
multiplies it by 0.95 (when the max-diff grew and the iteration index is
positive, source lines 369-371) or leaves it unchanged. -/
lemma stateAt_relax_succ (M : Materials) (relax0 : ℝ) (k : ℕ) :
    (stateAt M relax0 (k + 1)).relax =
      if 0 < k ∧ (stateAt M relax0 k).prevDiff < diffAt M relax0 k
      then (stateAt M relax0 k).relax * 0.95
      else (stateAt M relax0 k).relax := rfl

/-- The tracked previous max-diff after iteration k is iteration k's
max-diff, source line 374. -/
lemma stateAt_prevDiff_succ (M : Materials) (relax0 : ℝ) (k : ℕ) :
    (stateAt M relax0 (k + 1)).prevDiff = diffAt M relax0 k := rfl

/-- A non-negative initial relaxation factor stays non-negative. -/
lemma relax_nonneg (M : Materials) (relax0 : ℝ) (h : 0 ≤ relax0) :
    ∀ k, 0 ≤ (stateAt M relax0 k).relax := by
  intro k
  induction k with
  | zero => exact h
  | succ k ih =>
      rw [stateAt_relax_succ]
      split_ifs
      · exact mul_nonneg ih (by norm_num)
      · exact ih

/-- Claim C6: across any run with a non-negative initial relaxation factor
(the default is 0.05), the internally tracked relaxation factor never
increases from one iteration to the next: it is multiplied by 0.95 exactly
when the iteration's max-diff exceeds the previous iteration's max-diff
(there being no previous max-diff at iteration 0), and is left unchanged -
never restored - otherwise. -/
theorem claim_C6 (M : Materials) (relax0 : ℝ) (h : 0 ≤ relax0) (k : ℕ) :
    (stateAt M relax0 (k + 1)).relax ≤ (stateAt M relax0 k).relax ∧
    (stateAt M relax0 (k + 1)).prevDiff = diffAt M relax0 k ∧
    (0 < k ∧ (stateAt M relax0 k).prevDiff < diffAt M relax0 k →
      (stateAt M relax0 (k + 1)).relax = (stateAt M relax0 k).relax * 0.95) ∧
    (¬ (0 < k ∧ (stateAt M relax0 k).prevDiff < diffAt M relax0 k) →
      (stateAt M relax0 (k + 1)).relax = (stateAt M relax0 k).relax) := by
  refine ⟨?_, stateAt_prevDiff_succ M relax0 k, ?_, ?_⟩
  · rw [stateAt_relax_succ]
    split_ifs
    · have := relax_nonneg M relax0 h k
      linarith
    · exact le_refl _
  · intro hc
    rw [stateAt_relax_succ, if_pos hc]
  · intro hc
    rw [stateAt_relax_succ, if_neg hc]

/-- Claim C6 (witness): instantiation at the default relaxation factor
0.05 and iteration 0. -/
theorem claim_C6_witness :
    (0 : ℝ) ≤ 0.05 ∧
    (stateAt constMaterials 0.05 1).relax ≤ (stateAt constMaterials 0.05 0).relax :=
  ⟨by norm_num, (claim_C6 constMaterials 0.05 (by norm_num) 0).1⟩

/-- If no iteration in the budget converges, the loop runs the whole budget
and returns the corresponding trajectory state and count. -/
lemma solverLoop_nostop (M : Materials) (tol relax0 : ℝ) :
    ∀ (fuel idx : ℕ),
      (∀ j, idx ≤ j → j < idx + fuel → ¬ diffAt M relax0 j < tol) →
      solverLoop M tol fuel idx (stateAt M relax0 idx) =
        (stateAt M relax0 (idx + fuel), idx + fuel) := by
  intro fuel
  induction fuel with
  | zero => intro idx h; rfl
  | succ fuel ih =>
      intro idx h
      simp only [solverLoop]
      rw [show (iterateOnce M idx (stateAt M relax0 idx)).2 = diffAt M relax0 idx from rfl,
        if_neg (h idx (le_refl idx) (by omega)),
        show (iterateOnce M idx (stateAt M relax0 idx)).1 = stateAt M relax0 (idx + 1) from rfl,
        ih (idx + 1) (fun j h1 h2 => h j (by omega) (by omega))]
      have harith : idx + 1 + fuel = idx + (fuel + 1) := by omega
      rw [harith]

/-- If iteration k is the first converging iteration and lies inside the
budget, the loop stops right after it. -/
lemma solverLoop_conv (M : Materials) (tol relax0 : ℝ) :
    ∀ (fuel idx k : ℕ), idx ≤ k → k < idx + fuel →
      diffAt M relax0 k < tol →
      (∀ j, idx ≤ j → j < k → ¬ diffAt M relax0 j < tol) →
      solverLoop M tol fuel idx (stateAt M relax0 idx) =
        (stateAt M relax0 (k + 1), k + 1) := by
  intro fuel
  induction fuel with
  | zero => intro idx k h1 h2; omega
  | succ fuel ih =>
      intro idx k h1 h2 hconv hfirst
      simp only [solverLoop]
      rw [show (iterateOnce M idx (stateAt M relax0 idx)).2 = diffAt M relax0 idx from rfl,
        show (iterateOnce M idx (stateAt M relax0 idx)).1 = stateAt M relax0 (idx + 1) from rfl]
      by_cases hik : idx = k
      · subst hik
        rw [if_pos hconv]
      · rw [if_neg (hfirst idx (le_refl idx) (by omega))]
        exact ih (idx + 1) k (by omega) (by omega) hconv
          (fun j hj1 hj2 => hfirst j (by omega) hj2)

/-- Claim C4: for max_iterations >= 1, steady_state_simulation always
terminates within max_iterations iterations and returns (without raising)
the temperature arrays of the reached trajectory state together with the
completed-iteration count: if some iteration's wall-temperature max-diff
first drops below the tolerance at iteration k < max_iterations the run
completes k + 1 iterations, and otherwise it completes exactly
max_iterations iterations; the non-fatal warning fires exactly when the
count equals max_iterations. -/
theorem claim_C4 (M : Materials) (maxIter : ℕ) (tol relax0 : ℝ) (h : 1 ≤ maxIter) :
    1 ≤ (steady_state_simulation M maxIter tol relax0).iterations ∧
    (steady_state_simulation M maxIter tol relax0).iterations ≤ maxIter ∧
    ((steady_state_simulation M maxIter tol relax0).warned = true ↔
      (steady_state_simulation M maxIter tol relax0).iterations = maxIter) ∧
    ((∃ k, k < maxIter ∧ diffAt M relax0 k < tol ∧
        (∀ j, j < k → ¬ diffAt M relax0 j < tol) ∧
        steady_state_simulation M maxIter tol relax0 = resultOfRun M relax0 (k + 1) maxIter) ∨
     ((∀ k, k < maxIter → ¬ diffAt M relax0 k < tol) ∧
        steady_state_simulation M maxIter tol relax0 = resultOfRun M relax0 maxIter maxIter)) := by
  classical
  by_cases hc : ∃ k, k < maxIter ∧ diffAt M relax0 k < tol
  · obtain ⟨km, hkm, hkc⟩ := hc
    have hex : ∃ k, diffAt M relax0 k < tol := ⟨km, hkc⟩
    have hk0 : diffAt M relax0 (Nat.find hex) < tol := Nat.find_spec hex
    have hk0min : ∀ j, j < Nat.find hex → ¬ diffAt M relax0 j < tol :=
      fun j hj => Nat.find_min hex hj
    have hk0lt : Nat.find hex < maxIter := lt_of_le_of_lt (Nat.find_min' hex hkc) hkm
    have hloop : solverLoop M tol maxIter 0 (initState relax0) =
        (stateAt M relax0 (Nat.find hex + 1), Nat.find hex + 1) :=
      solverLoop_conv M tol relax0 maxIter 0 (Nat.find hex) (Nat.zero_le _) (by omega) hk0
        (fun j _ hj => hk0min j hj)
    have hrun : steady_state_simulation M maxIter tol relax0 =
        resultOfRun M relax0 (Nat.find hex + 1) maxIter := by
      simp only [steady_state_simulation, resultOfRun, hloop]
    refine ⟨?_, ?_, ?_, Or.inl ⟨Nat.find hex, hk0lt, hk0, hk0min, hrun⟩⟩
    · rw [hrun]; simp only [resultOfRun]; omega
    · rw [hrun]; simp only [resultOfRun]; omega
    · rw [hrun]; simp only [resultOfRun]; exact beq_iff_eq
  · simp only [not_exists, not_and] at hc
    have hloop : solverLoop M tol maxIter 0 (initState relax0) =
        (stateAt M relax0 (0 + maxIter), 0 + maxIter) :=
      solverLoop_nostop M tol relax0 maxIter 0 (fun j _ hj => hc j (by omega))
    have hrun : steady_state_simulation M maxIter tol relax0 =
        resultOfRun M relax0 maxIter maxIter := by
      simp only [steady_state_simulation, resultOfRun, hloop, Nat.zero_add]
    refine ⟨?_, ?_, ?_, Or.inr ⟨fun k hk => hc k hk, hrun⟩⟩
    · rw [hrun]; simp only [resultOfRun]; omega
    · rw [hrun]; simp only [resultOfRun]; omega
    · rw [hrun]; simp [resultOfRun]

/-- Claim C4 (witness): instantiation at max_iterations = 1. -/
theorem claim_C4_witness :
    1 ≤ 1 ∧
    1 ≤ (steady_state_simulation constMaterials 1 0.5 0.05).iterations ∧
    (steady_state_simulation constMaterials 1 0.5 0.05).iterations ≤ 1 :=
  ⟨le_refl 1, (claim_C4 constMaterials 1 0.5 0.05 (le_refl 1)).1,
   (claim_C4 constMaterials 1 0.5 0.05 (le_refl 1)).2.1⟩

/-- The completed-iteration count returned by the loop is at least the
starting loop index. -/
lemma solverLoop_idx_le (M : Materials) (tol : ℝ) :
    ∀ (fuel idx : ℕ) (st : SimState), idx ≤ (solverLoop M tol fuel idx st).2 := by
  intro fuel
  induction fuel with
  | zero => intro idx st; exact le_refl idx
  | succ fuel ih =>
      intro idx st
      simp only [solverLoop]
      split_ifs
      · omega
      · exact le_trans (by omega) (ih (idx + 1) _)

/-- The callback-instrumented loop computes the same state and count as the
plain loop, records one call per executed iteration with arguments
(iteration index, max_iterations, that iteration's max-diff), and collects
exactly the exceptions the callback raises, in order. -/
lemma solverLoopCb_char {ε : Type} (M : Materials) (cb : ℕ → ℕ → ℝ → Except ε Unit)
    (maxIterArg : ℕ) (tol relax0 : ℝ) :
    ∀ (fuel idx : ℕ),
      (solverLoopCb M cb maxIterArg tol fuel idx (stateAt M relax0 idx)).st =
        (solverLoop M tol fuel idx (stateAt M relax0 idx)).1 ∧
      (solverLoopCb M cb maxIterArg tol fuel idx (stateAt M relax0 idx)).iters =
        (solverLoop M tol fuel idx (stateAt M relax0 idx)).2 ∧
      (solverLoopCb M cb maxIterArg tol fuel idx (stateAt M relax0 idx)).calls =
        (List.range' idx ((solverLoop M tol fuel idx (stateAt M relax0 idx)).2 - idx)).map
          (fun j => (j, maxIterArg, diffAt M relax0 j)) ∧
      (solverLoopCb M cb maxIterArg tol fuel idx (stateAt M relax0 idx)).errs =
        (List.range' idx ((solverLoop M tol fuel idx (stateAt M relax0 idx)).2 - idx)).filterMap
          (fun j => errOf (cb j maxIterArg (diffAt M relax0 j))) := by
  intro fuel
  induction fuel with
  | zero =>
      intro idx
      refine ⟨rfl, rfl, ?_, ?_⟩ <;> simp [solverLoopCb, solverLoop]
  | succ fuel ih =>
      intro idx
      have hd : (iterateOnce M idx (stateAt M relax0 idx)).2 = diffAt M relax0 idx := rfl
      have hs : (iterateOnce M idx (stateAt M relax0 idx)).1 = stateAt M relax0 (idx + 1) := rfl
      by_cases hc : diffAt M relax0 idx < tol
      · simp only [solverLoopCb, solverLoop, hd, hs, if_pos hc]
        refine ⟨trivial, trivial, ?_, ?_⟩
        · simp [List.range'_one]
        · cases herr : errOf (cb idx maxIterArg (diffAt M relax0 idx)) <;>
            simp [herr, List.range'_one]
      · obtain ⟨h1, h2, h3, h4⟩ := ih (idx + 1)
        have hk : idx + 1 ≤ (solverLoop M tol fuel (idx + 1) (stateAt M relax0 (idx + 1))).2 :=
          solverLoop_idx_le M tol fuel (idx + 1) _
        have harith : (solverLoop M tol fuel (idx + 1) (stateAt M relax0 (idx + 1))).2 - idx =
            ((solverLoop M tol fuel (idx + 1) (stateAt M relax0 (idx + 1))).2 - (idx + 1)) + 1 :=
          by omega
        simp only [solverLoopCb, solverLoop, hd, hs, if_neg hc]
        refine ⟨h1, h2, ?_, ?_⟩
        · rw [h3, harith, List.range'_succ, List.map_cons]
        · rw [h4, harith, List.range'_succ, List.filterMap_cons]
          cases herr : errOf (cb idx maxIterArg (diffAt M relax0 idx)) <;>
            simp [herr, Option.toList]

/-- Claim C7: with a progress callback supplied, steady_state_simulation
invokes it once per iteration with (iteration_index, max_iterations,
current_max_diff); every exception the callback raises is caught and logged
(collected, in order, in the error log) and never propagated, and the
returned result is identical to the callback-free run for every callback. -/
theorem claim_C7 {ε : Type} (M : Materials) (cb : ℕ → ℕ → ℝ → Except ε Unit)
    (maxIter : ℕ) (tol relax0 : ℝ) :
    (steady_state_simulation_cb M cb maxIter tol relax0).result =
      steady_state_simulation M maxIter tol relax0 ∧
    (steady_state_simulation_cb M cb maxIter tol relax0).calls =
      (List.range (steady_state_simulation M maxIter tol relax0).iterations).map
        (fun j => (j, maxIter, diffAt M relax0 j)) ∧
    (steady_state_simulation_cb M cb maxIter tol relax0).errors =
      (List.range (steady_state_simulation M maxIter tol relax0).iterations).filterMap
        (fun j => errOf (cb j maxIter (diffAt M relax0 j))) := by
  have h := solverLoopCb_char M cb maxIter tol relax0 maxIter 0
  have h1 : (solverLoopCb M cb maxIter tol maxIter 0 (initState relax0)).st =
      (solverLoop M tol maxIter 0 (initState relax0)).1 := h.1
  have h2 : (solverLoopCb M cb maxIter tol maxIter 0 (initState relax0)).iters =
      (solverLoop M tol maxIter 0 (initState relax0)).2 := h.2.1
  have h3 : (solverLoopCb M cb maxIter tol maxIter 0 (initState relax0)).calls =
      (List.range' 0 ((solverLoop M tol maxIter 0 (initState relax0)).2 - 0)).map
        (fun j => (j, maxIter, diffAt M relax0 j)) := h.2.2.1
  have h4 : (solverLoopCb M cb maxIter tol maxIter 0 (initState relax0)).errs =
      (List.range' 0 ((solverLoop M tol maxIter 0 (initState relax0)).2 - 0)).filterMap
        (fun j => errOf (cb j maxIter (diffAt M relax0 j))) := h.2.2.2
  refine ⟨?_, ?_, ?_⟩
  · simp only [steady_state_simulation_cb, steady_state_simulation, h1, h2]
  · simp only [steady_state_simulation_cb, steady_state_simulation, h3,
      Nat.sub_zero, List.range_eq_range']
  · simp only [steady_state_simulation_cb, steady_state_simulation, h4,
      Nat.sub_zero, List.range_eq_range']

end Resistojet

end
